import Mathlib

/-!
Verification development for the Hedera wallet snap facades
(`AtomicSwapFacade`, `CreateTopicFacade`, `AssociateTokensFacade`,
`StakeHbarFacade`, `UpdateTokenFeeScheduleFacade`).

Modelling conventions:
* JavaScript numbers are modelled as rationals (`ℚ`); `Number.prototype.toFixed(2)`
  followed by `Number(...)` is modelled as rounding to the nearest hundredth.
* Nullable / optional values are modelled with `Option`; a JS `Record<string, number>`
  is modelled as an insertion-ordered association list `List (String × ℚ)`.
* External collaborators (snap dialog, Hedera client factory, mirror node,
  command objects) are modelled by an environment `Env` supplying their answers.
* Each facade run returns its result (`Except RpcError TxRecord`), the ordered
  trace of its external SDK effects (`List Event`), and the confirmation panel
  it assembled (`List PanelElem`).
-/

set_option allowUnsafeReducibility true

attribute [semireducible] Rat.add Rat.mul Rat.sub Rat.div Rat.inv Rat.neg

namespace HederaSnap

/-- Transaction receipt returned by a command object; its contents are opaque
to the facades, so it is modelled as an identifier-carrying structure. -/
structure TxRecord where
  id : Nat
deriving DecidableEq, Repr

/-- Error classes of `rpcErrors` used by the facades. -/
inductive RpcErrorCode where
  | transactionRejected
  | invalidParams
  | resourceUnavailable
  | methodNotSupported
deriving DecidableEq, Repr

/-- An error thrown by a facade, with its `rpcErrors` class and message. -/
structure RpcError where
  code : RpcErrorCode
  message : String
deriving DecidableEq, Repr

/-- Elements pushed onto a confirmation panel (`heading`, `text`, `copyable`,
`divider` from the snaps SDK). -/
inductive PanelElem where
  | heading (s : String)
  | text (s : String)
  | copyable (s : String)
  | divider
deriving DecidableEq, Repr

/-- External SDK effects performed by a facade, recorded in order. -/
inductive Event where
  | mirrorLookup
  | buildClient
  | showDialog
  | execCommand
  | persistState
deriving DecidableEq, Repr

/-- `SimpleTransfer` from `types/hedera`: one leg of an atomic swap.
`fromAcct` and `toAcct` model the `from` and `to` fields (`to` is a reserved
token in Lean). -/
structure SimpleTransfer where
  assetType : String
  assetId : Option String
  toAcct : String
  amount : ℚ
  fromAcct : Option String
  decimals : Option ℚ
deriving DecidableEq, Repr

/-- `AtomicSwap` from `types/hedera`: a requester leg and a responder leg. -/
structure AtomicSwap where
  requester : SimpleTransfer
  responder : SimpleTransfer
deriving DecidableEq, Repr

/-- `ServiceFee` from `types/params`. -/
structure ServiceFee where
  percentageCut : ℚ
  toAddress : String
deriving DecidableEq, Repr

/-! ## JS `Record<string, number>` as an association list -/

/-- Property read on a JS record: `m[k]`, `undefined` when absent. -/
def recGet (m : List (String × ℚ)) (k : String) : Option ℚ :=
  (m.find? (fun p => p.1 == k)).map Prod.snd

/-- Property write on a JS record: `m[k] = v` (update in place or append). -/
def recSet (m : List (String × ℚ)) (k : String) (v : ℚ) : List (String × ℚ) :=
  if (m.find? (fun p => p.1 == k)).isSome then
    m.map (fun p => if p.1 == k then (k, v) else p)
  else
    m ++ [(k, v)]

/-- JS falsiness of `m[k]` for a numeric record field: `undefined` and `0` are
falsy. -/
def optFalsy (o : Option ℚ) : Bool :=
  match o with
  | none => true
  | some v => v == 0

/-! ## Service-fee apportionment (`AtomicSwapFacade.initiateSwap`) -/

/-- `Number((x).toFixed(2))`: round to the nearest hundredth (idealised:
ties round half up; binary floating point is not modelled). -/
def toFixed2 (q : ℚ) : ℚ := ((q * 100 + 1 / 2).floor : ℚ) / 100

/-- One iteration of the `transfers.reduce` in `initiateSwap`: initialise the
accumulator entry when `acc[transfer.assetType]` is falsy, compute the fee,
deduct half of it from the transfer amount, and add the fee to the entry keyed
by `HBAR` or by the transfer assetId. -/
def feeStep (cut : ℚ) (acc : List (String × ℚ)) (t : SimpleTransfer) :
    SimpleTransfer × List (String × ℚ) :=
  let key := if t.assetType == "HBAR" then "HBAR" else t.assetId.getD "undefined"
  let acc1 := if optFalsy (recGet acc t.assetType) then recSet acc key 0 else acc
  let fee := toFixed2 (t.amount * (cut / 100))
  let t1 := { t with amount := t.amount - fee / 2 }
  (t1, recSet acc1 key ((recGet acc1 key).getD 0 + fee))

/-- The whole `transfers.reduce` of `initiateSwap`. The source first flattens
every swap into `[requester, responder]` and folds over that list, mutating the
transfer amounts in place; this function folds in the same order and returns
the updated swaps together with the final `serviceFeesToPay` record. -/
def applyFees (cut : ℚ) : List AtomicSwap → List (String × ℚ) →
    List AtomicSwap × List (String × ℚ)
  | [], acc => ([], acc)
  | s :: rest, acc =>
    let r1 := feeStep cut acc s.requester
    let r2 := feeStep cut r1.2 s.responder
    let r3 := applyFees cut rest r2.2
    ({ requester := r1.1, responder := r2.1 } :: r3.1, r3.2)

/-! ## Environment and wallet state -/

/-- Token balance entry of a mirror-node account balance
(`walletBalance.tokens[assetId]`). -/
structure TokenBalance where
  balance : ℚ
  decimals : ℚ
deriving Repr

/-- Mirror-node account info used by `createTxDialog`
(`ownerAccountInfo.balance`). -/
structure AccountBalance where
  hbars : ℚ
  tokens : String → Option TokenBalance

/-- Mirror-node token info (`CryptoUtils.getTokenById`); `none` models the
empty object (`_.isEmpty(tokenInfo)`). Mirror-node decimals are the decimal
digits of a token and are modelled as a natural number. -/
structure TokenInfoM where
  name : String
  type : String
  symbol : String
  total_supply : ℚ
  max_supply : ℚ
  decimals : Nat
deriving DecidableEq, Repr

/-- Mirror-node node-staking info (`HederaUtils.getNodeStakingInfo`);
`none` models an empty result list. -/
structure NodeInfoM where
  description : String
  node_id : Int
  node_account_id : String
  stake : ℚ
  staking_period_from : String
  staking_period_to : String
deriving DecidableEq, Repr

/-- Staking info persisted in the account state. -/
structure StakingInfo where
  stakedAccountId : Option String
  stakedNodeId : Option String
  declineStakingReward : Bool
deriving DecidableEq, Repr

/-- Wallet snap state visible to the facades: the current account id and the
persisted staking info of the current account and network. -/
structure WState where
  hederaAccountId : String
  stakingInfo : StakingInfo

/-- Environment of external collaborators: the user dialog, the Hedera client
factory, the mirror node, the command objects, and the opaque string
formatters used when interpolating numbers into panel text. -/
structure Env where
  dialogConfirmed : Bool
  clientOk : Bool
  privateKeyOk : Bool
  accountInfo : String → AccountBalance
  tokenInfo : String → Option TokenInfoM
  nodeStakingInfo : Int → Option NodeInfoM
  receipt : TxRecord
  numStr : ℚ → String
  hbarStr : ℚ → String
  tsStr : String → String
  feeFmt : ℚ → SimpleTransfer → String

/-- Outcome of a facade run: result, ordered effect trace, assembled panel. -/
structure Run where
  result : Except RpcError TxRecord
  trace : List Event
  panel : List PanelElem

/-- The `rpcErrors` class of a result, `none` on success. -/
def errCode {α : Type} : Except RpcError α → Option RpcErrorCode
  | .ok _ => none
  | .error e => some e.code

/-! ## `CreateTopicFacade.createTopic` -/

/-- `CreateTopicRequestParams`. -/
structure CreateTopicParams where
  memo : Option String
  adminKey : Option String
  submitKey : Option String
  autoRenewPeriod : Option ℚ
  autoRenewAccount : Option String

/-- Confirmation panel assembled by `createTopic`. -/
def createTopicPanel (env : Env) (p : CreateTopicParams) : List PanelElem :=
  [PanelElem.heading "Create a new topic",
   PanelElem.text "Learn more about creating topics [here](https://docs.hedera.com/hedera/sdks-and-apis/hedera-api/consensus/consensuscreatetopic)",
   PanelElem.text "You are about to create a new topic with the following parameters:",
   PanelElem.divider]
  ++ (match p.memo with
      | some m => [PanelElem.text ("Memo: " ++ m)]
      | none => [])
  ++ (match p.adminKey with
      | some k => [PanelElem.text "Admin Key:", PanelElem.copyable k]
      | none => [])
  ++ (match p.submitKey with
      | some k => [PanelElem.text "Submit Key:", PanelElem.copyable k]
      | none => [])
  ++ (match p.autoRenewPeriod with
      | some v => [PanelElem.text ("Auto Renew Period: " ++ env.numStr v)]
      | none => [])
  ++ (match p.autoRenewAccount with
      | some a => [PanelElem.text "Auto Renew Account:", PanelElem.copyable a]
      | none => [])

/-- The `transactionRejected` error `createTopic` rethrows every caught
failure as. -/
def topicErr : RpcError := ⟨.transactionRejected, "Error while trying to create a topic"⟩

/-- `CreateTopicFacade.createTopic`: assemble panel, show dialog, build
client, execute `CreateTopicCommand`. Every error raised inside the `try`
block is rethrown by the `catch` as a `transactionRejected` error. -/
def createTopic (env : Env) (st : WState) (p : CreateTopicParams) : Run :=
  let errW : RpcError := topicErr
  let panel := createTopicPanel env p
  if env.dialogConfirmed then
    if env.clientOk then
      { result := .ok env.receipt,
        trace := [.showDialog, .buildClient, .execCommand], panel := panel }
    else
      { result := .error errW, trace := [.showDialog, .buildClient], panel := panel }
  else
    { result := .error errW, trace := [.showDialog], panel := panel }

/-! ## `AssociateTokensFacade.associateTokens` -/

/-- `AssociateTokensRequestParams`. -/
structure AssociateTokensParams where
  tokenIds : Option (List String)

/-- Panel fragment for one token in the `associateTokens` loop; `tids0` is the
whole request list (the token number is `tokenIds.indexOf(tokenId) + 1`). -/
def assocTokenPanel (env : Env) (tids0 : List String) (tid : String) : List PanelElem :=
  [PanelElem.text ("Token #" ++ toString (tids0.indexOf tid + 1)),
   PanelElem.divider,
   PanelElem.text "Asset Id:", PanelElem.copyable tid]
  ++ (match env.tokenInfo tid with
      | none =>
        [PanelElem.text ("Error while trying to get token info for " ++ tid
            ++ " from Hedera Mirror Nodes at this time"),
         PanelElem.text "Proceed only if you are sure this asset ID exists"]
      | some ti =>
        [PanelElem.text ("Asset Name: " ++ ti.name),
         PanelElem.text ("Asset Type: " ++ ti.type),
         PanelElem.text ("Symbol: " ++ ti.symbol),
         PanelElem.text ("Total Supply: " ++ env.numStr (ti.total_supply / 10 ^ ti.decimals)),
         PanelElem.text ("Max Supply: " ++ env.numStr (ti.max_supply / 10 ^ ti.decimals))])
  ++ [PanelElem.divider]

/-- The `for (const tokenId of tokenIds)` loop of `associateTokens`. -/
def assocLoop (env : Env) (tids0 : List String) : List String → List PanelElem
  | [] => []
  | t :: rest => assocTokenPanel env tids0 t ++ assocLoop env tids0 rest

/-- Confirmation panel assembled by `associateTokens`. -/
def assocPanel (env : Env) (tids : List String) : List PanelElem :=
  [PanelElem.heading "Associate Tokens",
   PanelElem.text "Are you sure you want to associate the following tokens to your account?",
   PanelElem.divider]
  ++ assocLoop env tids tids

/-- The `transactionRejected` error `associateTokens` rethrows every caught
failure as. -/
def assocErr : RpcError :=
  ⟨.transactionRejected, "Error while trying to associate tokens to the account"⟩

/-- `AssociateTokensFacade.associateTokens`: assemble panel (one section per
token id, warning section when the mirror-node lookup is empty), show dialog,
build client, execute `AssociateTokensCommand`. Errors inside the `try` are
rethrown as `transactionRejected`. -/
def associateTokens (env : Env) (st : WState) (p : AssociateTokensParams) : Run :=
  let errW : RpcError := assocErr
  let tids := p.tokenIds.getD []
  let panel := assocPanel env tids
  if env.dialogConfirmed then
    if env.clientOk then
      { result := .ok env.receipt,
        trace := [.showDialog, .buildClient, .execCommand], panel := panel }
    else
      { result := .error errW, trace := [.showDialog, .buildClient], panel := panel }
  else
    { result := .error errW, trace := [.showDialog], panel := panel }

/-! ## `UpdateTokenFeeScheduleFacade.updateTokenFeeSchedule` -/

/-- One entry of `customFees` in `UpdateTokenFeeScheduleRequestParams`. -/
structure CustomFee where
  feeCollectorAccountId : String
  hbarAmount : Option ℚ
  tokenAmount : Option ℚ
  denominatingTokenId : Option String
  allCollectorsAreExempt : Option Bool

/-- `UpdateTokenFeeScheduleRequestParams`; `customFees = none` models an
`undefined` custom fee schedule. -/
structure UpdateTokenFeeScheduleParams where
  tokenId : String
  customFees : Option (List CustomFee)

/-- Panel fragment for one custom fee (JS truthiness: a numeric field is shown
when defined and nonzero, `allCollectorsAreExempt` when `true`, the
denominating token id when a nonempty string). -/
def customFeePanel (env : Env) (f : CustomFee) : List PanelElem :=
  [PanelElem.text "Fee Collection Id:", PanelElem.copyable f.feeCollectorAccountId]
  ++ (match f.hbarAmount with
      | some v => if v ≠ 0 then [PanelElem.text ("Hbar Amount: " ++ env.numStr v)] else []
      | none => [])
  ++ (match f.tokenAmount with
      | some v => if v ≠ 0 then [PanelElem.text ("Token Amount: " ++ env.numStr v)] else []
      | none => [])
  ++ (match f.denominatingTokenId with
      | some d => if d ≠ "" then [PanelElem.text "Denominating Token Id:", PanelElem.copyable d] else []
      | none => [])
  ++ (match f.allCollectorsAreExempt with
      | some b => if b then [PanelElem.text "All Collectors Are Exempt: true"] else []
      | none => [])

/-- The `for (const fee of customFees)` loop of `updateTokenFeeSchedule`. -/
def customFeesLoop (env : Env) : List CustomFee → List PanelElem
  | [] => []
  | f :: rest => customFeePanel env f ++ customFeesLoop env rest

/-- Confirmation panel assembled by `updateTokenFeeSchedule`. -/
def updateFeePanel (env : Env) (tokenId : String) (fees : List CustomFee) : List PanelElem :=
  [PanelElem.heading "Update token fee schedule",
   PanelElem.text "Learn more about updating a token fee schedule [here](https://docs.hedera.com/hedera/sdks-and-apis/sdks/readme-1/update-a-fee-schedule)",
   PanelElem.text "You are about to modify a token\x27s fee schedule with the following details:",
   PanelElem.divider,
   PanelElem.text "Asset Id:", PanelElem.copyable tokenId]
  ++ customFeesLoop env fees

/-- The `transactionRejected` error `updateTokenFeeSchedule` rethrows every
caught failure as. -/
def updateFeeErr : RpcError :=
  ⟨.transactionRejected, "Error while trying to update a token fee schedule"⟩

/-- `UpdateTokenFeeScheduleFacade.updateTokenFeeSchedule`: reject an
`undefined` custom fee schedule with `invalidParams` before anything else
happens; otherwise look the token up on the mirror node, assemble the panel,
show the dialog, build the client, check the private key, and execute
`UpdateTokenFeeScheduleCommand`. Errors inside the `try` are rethrown as
`transactionRejected`; the initial `invalidParams` throw is outside the `try`
and propagates unchanged. -/
def updateTokenFeeSchedule (env : Env) (st : WState) (p : UpdateTokenFeeScheduleParams) : Run :=
  match p.customFees with
  | none =>
    { result := .error ⟨.invalidParams, "null custom fee schedule given"⟩,
      trace := [], panel := [] }
  | some fees =>
    let errW : RpcError := updateFeeErr
    let panel := updateFeePanel env p.tokenId fees
    if env.dialogConfirmed then
      if env.clientOk then
        if env.privateKeyOk then
          { result := .ok env.receipt,
            trace := [.mirrorLookup, .showDialog, .buildClient, .execCommand],
            panel := panel }
        else
          { result := .error errW,
            trace := [.mirrorLookup, .showDialog, .buildClient], panel := panel }
      else
        { result := .error errW,
          trace := [.mirrorLookup, .showDialog, .buildClient], panel := panel }
    else
      { result := .error errW, trace := [.mirrorLookup, .showDialog], panel := panel }

/-! ## `StakeHbarFacade.stakeHbar` -/

/-- `StakeHbarRequestParams`; `none` models `null`/omitted. -/
structure StakeHbarParams where
  nodeId : Option Int
  accountId : Option String

/-- Outcome of a `stakeHbar` run; `persisted` is the staking info written back
through `SnapState.updateState`, `none` when no state was persisted. -/
structure StakeRun where
  result : Except RpcError TxRecord
  trace : List Event
  panel : List PanelElem
  persisted : Option StakingInfo

/-- The `transactionRejected` error every failure of `stakeHbar` is rethrown
as by its `catch` block. -/
def stakeErr : RpcError := ⟨.transactionRejected, "Error while trying to stake Hbar"⟩

/-- Panel fragment describing the node a user is about to stake to. -/
def stakeNodePanel (env : Env) (info : NodeInfoM) : List PanelElem :=
  [PanelElem.text ("Node Description: " ++ info.description),
   PanelElem.text ("Node ID: " ++ toString info.node_id),
   PanelElem.text ("Node Account ID: " ++ info.node_account_id),
   PanelElem.text ("Total Stake: " ++ env.hbarStr info.stake),
   PanelElem.text ("Staking Start: " ++ env.tsStr info.staking_period_from),
   PanelElem.text ("Staking End: " ++ env.tsStr info.staking_period_to)]

/-- Fixed opening of the `stakeHbar` panel. -/
def stakeBasePanel : List PanelElem :=
  [PanelElem.heading "Stake/Unstake HBAR",
   PanelElem.text "Refer to this [guide](https://docs.hedera.com/hedera/core-concepts/staking) for more information on staking HBAR",
   PanelElem.divider]

/-- Header pushed in the staking (non-unstaking) branch of `stakeHbar`. -/
def stakeHdr : List PanelElem :=
  [PanelElem.text "You are about to stake your HBAR to the following:",
   PanelElem.divider]

/-- Tail of `stakeHbar` after the panel is assembled and the local staking
info has been updated: show dialog, build client, execute `StakeHbarCommand`,
write the staking info back and persist it with `SnapState.updateState`. -/
def stakeDialogPart (env : Env) (panel : List PanelElem) (si : StakingInfo) : StakeRun :=
  if env.dialogConfirmed then
    if env.clientOk then
      { result := .ok env.receipt,
        trace := [.showDialog, .buildClient, .execCommand, .persistState],
        panel := panel, persisted := some si }
    else
      { result := .error stakeErr, trace := [.showDialog, .buildClient],
        panel := panel, persisted := none }
  else
    { result := .error stakeErr, trace := [.showDialog],
      panel := panel, persisted := none }

/-- `StakeHbarFacade.stakeHbar`. Both ids `null` is unstaking
(`declineStakingReward := true`); both non-`null` throws; a node id must
exist on the mirror node and sets `stakedNodeId := String(nodeId)`; an
account id is recorded only when the string is nonempty
(`!_.isEmpty(accountId)`); every staking branch sets
`declineStakingReward := false`. -/
def stakeHbar (env : Env) (st : WState) (p : StakeHbarParams) : StakeRun :=
  let si := st.stakingInfo
  match p.nodeId, p.accountId with
  | none, none =>
    stakeDialogPart env
      (stakeBasePanel ++
        [PanelElem.text "You are about to unstake your HBAR so you will not be receiving any staking rewards from here on out."])
      { si with declineStakingReward := true }
  | some _, some _ =>
    { result := .error stakeErr, trace := [], panel := stakeBasePanel, persisted := none }
  | some n, none =>
    (match env.nodeStakingInfo n with
     | none =>
       { result := .error stakeErr, trace := [],
         panel := stakeBasePanel ++ stakeHdr, persisted := none }
     | some info =>
       stakeDialogPart env
         (stakeBasePanel ++ stakeHdr ++ stakeNodePanel env info ++ [PanelElem.divider])
         { si with stakedNodeId := some (toString n), declineStakingReward := false })
  | none, some a =>
    if a ≠ "" then
      stakeDialogPart env
        (stakeBasePanel ++ stakeHdr ++
          [PanelElem.text "Account ID:", PanelElem.copyable a, PanelElem.divider])
        { si with stakedAccountId := some a, declineStakingReward := false }
    else
      stakeDialogPart env
        (stakeBasePanel ++ stakeHdr ++ [PanelElem.divider])
        { si with declineStakingReward := false }

/-! ## `AtomicSwapFacade` -/

/-- `InitiateSwapRequestParams`; `none` is `undefined`/`null`. -/
structure InitiateSwapParams where
  atomicSwaps : Option (List AtomicSwap)
  memo : Option String
  maxFee : Option ℚ
  serviceFee : Option ServiceFee

/-- `SignScheduledTxParams` for `completeSwap`. -/
structure CompleteSwapParams where
  scheduleId : String

/-- Arguments the facade hands to the `AtomicSwapCommand` constructor. -/
structure AtomicSwapCmdArgs where
  atomicSwaps : List AtomicSwap
  memo : Option String
  maxFee : Option ℚ
  serviceFeesToPay : List (String × ℚ)
  toAddress : String

/-- Outcome of an `initiateSwap` run; `commandArgs` is `some` exactly when an
`AtomicSwapCommand` was constructed, and `dialogLog` records, in order, the
sending account shown by each per-transfer dialog section together with
whether it was the requester section. -/
structure SwapRun where
  result : Except RpcError TxRecord
  trace : List Event
  panel : List PanelElem
  commandArgs : Option AtomicSwapCmdArgs
  dialogLog : List (String × Bool)

/-- Notice shown by the `initiateSwap` confirmation dialog. -/
def initiateSwapNotice : String :=
  "Are you sure you want to execute the following swap? Note that the responder will also need to approve the swap by calling \"hts/completeSwap\" API within 30 minutes from now or the transaction will fail."

/-- Notice shown by the `completeSwap` confirmation dialog. -/
def completeSwapNotice : String :=
  "Are you sure you want to execute the following swap? Note that all the parties involved in the swap must approve the swap within 30 minutes from now or the transaction will fail."

/-- `memo.replace(/\r?\n|\r/gu, '').trim()`. -/
def stripMemo (s : String) : String :=
  ((s.replace "\r" "").replace "\n" "").trim

/-- Fixed opening of the `initiateSwap` panel, followed by the optional memo
and max-fee lines. -/
def swapBasePanel (env : Env) (memo : Option String) (maxFee : Option ℚ) : List PanelElem :=
  [PanelElem.heading "Initiate Atomic Swap",
   PanelElem.text "Learn more about atomic swap [here](https://docs.hedera.com/hedera/sdks-and-apis/sdks/token-service/atomic-swaps)",
   PanelElem.text initiateSwapNotice,
   PanelElem.divider]
  ++ (match memo with
      | some m => if stripMemo m ≠ "" then
          [PanelElem.text "Memo:", PanelElem.copyable (stripMemo m)] else []
      | none => [])
  ++ (match maxFee with
      | some v => if v ≠ 0 then
          [PanelElem.text ("Max Transaction Fee: " ++ env.numStr v ++ " Hbar")] else []
      | none => [])

/-- JS truthiness of `newTransfer.from !== undefined && !_.isEmpty(newTransfer.from)`. -/
def jsStrTruthy (o : Option String) : Bool :=
  match o with
  | none => false
  | some s => s != ""

/-- `AtomicSwapFacade.createTxDialog`: assemble the per-transfer dialog
section and return the (possibly decimals-updated) transfer together with the
panel fragment it appended. Throws on delegated transfers and when the token
decimals end up non-finite. -/
def createTxDialog (env : Env) (sender : String) (t : SimpleTransfer)
    (fees : List (String × ℚ)) (isRequester : Bool) :
    Except RpcError (SimpleTransfer × List PanelElem) :=
  if jsStrTruthy t.fromAcct then
    .error ⟨.methodNotSupported,
      "Atomic Swaps cannot be done with delegated transfers at this time"⟩
  else
    let bal := env.accountInfo sender
    let frag0 := [PanelElem.text (if isRequester then "Swap Requester" else "Swap Responder"),
                  PanelElem.copyable sender,
                  PanelElem.text ("Asset Type: " ++ t.assetType)]
    if t.assetType == "HBAR" then
      let short : Bool :=
        match recGet fees "HBAR" with
        | some v => decide (bal.hbars < t.amount + v)
        | none => false
      let frag1 := frag0 ++ (if short then
          [PanelElem.text "There is not enough Hbar in the wallet to transfer the requested amount",
           PanelElem.text "Proceed only if you are sure about the amount being transferred"]
        else [])
      .ok (t, frag1 ++ [PanelElem.text "To:", PanelElem.copyable t.toAcct,
            PanelElem.text ("Amount: " ++ env.numStr t.amount ++ " HBAR")])
    else
      let aid := t.assetId.getD "undefined"
      let tokBal := bal.tokens aid
      let decimals0 : Option ℚ := tokBal.map TokenBalance.decimals
      let short : Bool :=
        match tokBal with
        | none => true
        | some tb => decide (tb.balance < t.amount)
      let frag1 := frag0 ++ (if short then
          [PanelElem.text ("This wallet either does not own  " ++ aid
              ++ " or there is not enough balance to transfer the requested amount"),
           PanelElem.text "Proceed only if you are sure about the amount being transferred"]
        else [])
      let parts := aid.splitOn "/"
      let assetId := if t.assetType == "NFT" then parts.headD "" else aid
      let serial := if t.assetType == "NFT" then (parts.drop 1).headD "undefined" else ""
      let frag2 := frag1 ++ [PanelElem.text "Asset Id:", PanelElem.copyable assetId]
      let tokenInfo := env.tokenInfo assetId
      let frag3 := frag2 ++ (match tokenInfo with
        | none =>
          [PanelElem.text ("Error while trying to get token info for " ++ assetId
              ++ " from Hedera Mirror Nodes at this time"),
           PanelElem.text "Proceed only if you are sure about the asset ID being transferred"]
        | some ti =>
          [PanelElem.text ("Asset Name: " ++ ti.name),
           PanelElem.text ("Asset Type: " ++ ti.type),
           PanelElem.text ("Symbol: " ++ ti.symbol)])
      let decimals1 : Option ℚ :=
        match tokenInfo with
        | some ti => some (ti.decimals : ℚ)
        | none => decimals0
      let asset := match tokenInfo with
        | some ti => ti.symbol
        | none => ""
      match decimals1 with
      | none => .error ⟨.invalidParams, "decimals is not a finite number"⟩
      | some d =>
        let t1 := { t with decimals := some d }
        let frag4 := frag3 ++ (if t.assetType == "NFT" then
            [PanelElem.text ("NFT Serial Number: " ++ serial)] else [])
        let feeToDisplay : Option ℚ :=
          match recGet fees t.assetType with
          | some v => if 0 < v then some v else recGet fees aid
          | none => recGet fees aid
        let frag5 := frag4 ++ [PanelElem.text "To:", PanelElem.copyable t.toAcct,
            PanelElem.text ("Amount: " ++ env.numStr t.amount ++ " " ++ asset)]
        let frag6 := frag5 ++ (match feeToDisplay with
          | some v => if 0 < v then
              [PanelElem.text (env.feeFmt v t1),
               PanelElem.text (env.feeFmt (t1.amount + v) t1)]
            else []
          | none => [])
        .ok (t1, frag6)

/-- The `for (const swap of atomicSwaps)` dialog loop of `initiateSwap`: for
each swap, a requester section sent from the wallet account, then the
responder `to` field is overwritten with the wallet account id and a
responder section is built whose sending account is the requester `to`
account. Returns the updated swaps, the appended panel fragment, and the
ordered log of `(sending account, isRequester)` dialog sections. -/
def swapLoop (env : Env) (hAcc : String) (fees : List (String × ℚ)) :
    List AtomicSwap → Nat →
    Except RpcError (List AtomicSwap × List PanelElem × List (String × Bool))
  | [], _ => .ok ([], [], [])
  | swap :: rest, n =>
    let hdr := [PanelElem.divider, PanelElem.text ("Swap #" ++ toString (n + 1)),
                PanelElem.divider]
    match createTxDialog env hAcc swap.requester fees true with
    | .error e => .error e
    | .ok (req1, fragR) =>
      let sender2 := req1.toAcct
      match createTxDialog env sender2 { swap.responder with toAcct := hAcc } fees false with
      | .error e => .error e
      | .ok (resp1, fragS) =>
        match swapLoop env hAcc fees rest (n + 1) with
        | .error e => .error e
        | .ok (rest1, frags, logs) =>
          .ok (⟨req1, resp1⟩ :: rest1,
               hdr ++ fragR ++ [PanelElem.divider] ++ fragS ++ frags,
               (hAcc, true) :: (sender2, false) :: logs)

/-- The `transactionRejected` error `initiateSwap` rethrows every caught
failure as. -/
def swapErr : RpcError := ⟨.transactionRejected, "Error while trying to initiate atomic swap"⟩

/-- The `resourceUnavailable` error thrown when the client factory returns `null`. -/
def clientNullErr : RpcError := ⟨.resourceUnavailable, "hedera client returned null"⟩

/-- `AtomicSwapFacade.initiateSwap`: apply the service-fee reduce to all
transfers, build the Hedera client, assemble the panel (fixed notice, memo,
max fee, one section per swap), show the dialog, construct the
`AtomicSwapCommand` from the updated swaps and the `serviceFeesToPay` record,
and execute it. The client-null failure propagates as `resourceUnavailable`;
every error inside the `try` is rethrown as `transactionRejected`. -/
def initiateSwap (env : Env) (st : WState) (p : InitiateSwapParams) : SwapRun :=
  let errW : RpcError := swapErr
  let swaps0 := p.atomicSwaps.getD []
  let sf := p.serviceFee.getD ⟨0, "0.0.98"⟩
  let fa := applyFees sf.percentageCut swaps0 []
  if env.clientOk then
    let base := swapBasePanel env p.memo p.maxFee
    match swapLoop env st.hederaAccountId fa.2 fa.1 0 with
    | .error _ =>
      { result := .error errW, trace := [.buildClient], panel := base,
        commandArgs := none, dialogLog := [] }
    | .ok (swaps1, frag, log) =>
      let panel := base ++ frag
      if env.dialogConfirmed then
        { result := .ok env.receipt,
          trace := [.buildClient, .showDialog, .execCommand],
          panel := panel,
          commandArgs := some ⟨swaps1, p.memo, p.maxFee, fa.2, sf.toAddress⟩,
          dialogLog := log }
      else
        { result := .error errW, trace := [.buildClient, .showDialog],
          panel := panel, commandArgs := none, dialogLog := log }
  else
    { result := .error clientNullErr,
      trace := [.buildClient], panel := [], commandArgs := none, dialogLog := [] }

/-- The `transactionRejected` error `completeSwap` rethrows every caught
failure as. -/
def completeErr : RpcError := ⟨.transactionRejected, "Error while trying to complete atomic swap"⟩

/-- `AtomicSwapFacade.completeSwap`: build the client, assemble the panel
(fixed notice plus the scheduled transaction id), show the dialog, and ask
the `AtomicSwapCommand` to sign the scheduled transaction. -/
def completeSwap (env : Env) (st : WState) (p : CompleteSwapParams) : Run :=
  let errW : RpcError := completeErr
  if env.clientOk then
    let panel :=
      [PanelElem.heading "Complete Atomic Swap",
       PanelElem.text "Learn more about atomic swap [here](https://docs.hedera.com/hedera/sdks-and-apis/sdks/token-service/atomic-swaps)",
       PanelElem.text completeSwapNotice,
       PanelElem.divider,
       PanelElem.text "Atomic Swap Scheduled Transaction ID:",
       PanelElem.copyable p.scheduleId,
       PanelElem.divider]
    if env.dialogConfirmed then
      { result := .ok env.receipt,
        trace := [.buildClient, .showDialog, .execCommand], panel := panel }
    else
      { result := .error errW, trace := [.buildClient, .showDialog], panel := panel }
  else
    { result := .error clientNullErr,
      trace := [.buildClient], panel := [] }

/-! ## Concrete fixtures for witnesses and counterexamples -/

/-- A fixed receipt returned by the command objects in the fixtures. -/
def txR : TxRecord := ⟨7⟩

/-- Environment where the user confirms, the client is available, the wallet
holds plenty of HBAR and no tokens, and all mirror lookups are empty. -/
def envOK : Env where
  dialogConfirmed := true
  clientOk := true
  privateKeyOk := true
  accountInfo := fun _ => ⟨1000000, fun _ => none⟩
  tokenInfo := fun _ => none
  nodeStakingInfo := fun _ => none
  receipt := txR
  numStr := fun _ => ""
  hbarStr := fun _ => ""
  tsStr := fun _ => ""
  feeFmt := fun _ _ => ""

/-- `envOK` with the confirmation dialog answered negatively. -/
def envRej : Env := { envOK with dialogConfirmed := false }

/-- Wallet state fixture: account `0.0.100`, previously staked to account
`0.0.5`. -/
def stOK : WState := ⟨"0.0.100", ⟨some "0.0.5", none, false⟩⟩

/-- Failing input for the service-fee accumulator: a single swap whose two
legs transfer the same token `0.0.1234`, each of amount `100`, at a 10 percent
cut. -/
def c1Swap : AtomicSwap :=
  ⟨⟨"TOKEN", some "0.0.1234", "0.0.222", 100, none, none⟩,
   ⟨"TOKEN", some "0.0.1234", "0.0.333", 100, none, none⟩⟩

/-- Request fixture for `initiateSwap`: one swap with two HBAR legs of
amount 5, no memo, no max fee, no service fee. -/
def pSwapW : InitiateSwapParams :=
  ⟨some [⟨⟨"HBAR", none, "0.0.200", 5, none, none⟩,
         ⟨"HBAR", none, "0.0.300", 5, none, none⟩⟩], none, none, none⟩

/-- One HBAR transfer leg used in witnesses. -/
def tHbarW : SimpleTransfer := ⟨"HBAR", none, "0.0.200", 5, none, none⟩

/-- Request fixture for `createTopic`. -/
def pTopicW : CreateTopicParams := ⟨some "m", none, none, none, none⟩

/-- Request fixture for `associateTokens`: one known and one unknown token. -/
def pAssocW : AssociateTokensParams := ⟨some ["0.0.7", "0.0.8"]⟩

/-- Request fixture for `stakeHbar`: stake to account `0.0.3`. -/
def pStakeW : StakeHbarParams := ⟨none, some "0.0.3"⟩

/-- Failing input for the stakeHbar persistence claim: an account id that is
provided but empty. -/
def pStakeEmpty : StakeHbarParams := ⟨none, some ""⟩

/-- Request fixture for `completeSwap`. -/
def pCompW : CompleteSwapParams := ⟨"0.0.999"⟩

/-- Request fixture for `updateTokenFeeSchedule` with `customFees` omitted. -/
def pFeeNone : UpdateTokenFeeScheduleParams := ⟨"0.0.50", none⟩

/-- Request fixture for `updateTokenFeeSchedule` with an empty fee list. -/
def pFeeSome : UpdateTokenFeeScheduleParams := ⟨"0.0.50", some []⟩

/-- Mirror-node token info fixture. -/
def tokW : TokenInfoM := ⟨"TokA", "FUNGIBLE_COMMON", "TKA", 1000, 2000, 2⟩

/-- `envOK` with the mirror node knowing token `0.0.7` only. -/
def envTok : Env :=
  { envOK with tokenInfo := fun tid => if tid == "0.0.7" then some tokW else none }

/-- Default command-argument record (used only to extract the constructed
arguments of a fixture run). -/
def swapArgsDefault : AtomicSwapCmdArgs := ⟨[], none, none, [], ""⟩

/-- The `AtomicSwapCommand` arguments constructed by the `pSwapW` fixture
run. -/
def swapArgsW : AtomicSwapCmdArgs :=
  ((initiateSwap envOK stOK pSwapW).commandArgs).getD swapArgsDefault

/-- The per-swap dialog sections `initiateSwap` is expected to create: for
each swap a requester section sent from the wallet account and a responder
section sent from the requester `to` account. -/
def expectedDialogLog (hAcc : String) : List AtomicSwap → List (String × Bool)
  | [] => []
  | s :: rest => (hAcc, true) :: (s.requester.toAcct, false) :: expectedDialogLog hAcc rest

/-! ## Specification patterns -/

/-- Pattern for the dialog-gating claim: when the dialog was shown and the
user did not confirm, the run fails with a `transactionRejected` error and
the command never executes; and the command executes only after a confirmed
dialog. -/
def rejectSpec (confirmed : Bool) (res : Except RpcError TxRecord) (tr : List Event) : Prop :=
  (Event.showDialog ∈ tr → confirmed = false →
    errCode res = some RpcErrorCode.transactionRejected ∧ Event.execCommand ∉ tr) ∧
  (Event.execCommand ∈ tr → confirmed = true)

/-- Pattern for the call-order claim: the dialog and the client build both
precede command execution, and persistence happens only after command
execution. -/
def orderSpec (tr : List Event) : Prop :=
  (Event.execCommand ∈ tr →
    Event.showDialog ∈ tr ∧ Event.buildClient ∈ tr ∧
    tr.indexOf Event.showDialog < tr.indexOf Event.execCommand ∧
    tr.indexOf Event.buildClient < tr.indexOf Event.execCommand) ∧
  (Event.persistState ∈ tr →
    Event.execCommand ∈ tr ∧ tr.indexOf Event.execCommand < tr.indexOf Event.persistState)

/-- The dialog strictly precedes the client build whenever the client is
built. -/
def dialogBeforeClient (tr : List Event) : Prop :=
  Event.buildClient ∈ tr → tr.indexOf Event.showDialog < tr.indexOf Event.buildClient

/-- The client build strictly precedes the dialog whenever the dialog is
shown. -/
def clientBeforeDialog (tr : List Event) : Prop :=
  Event.showDialog ∈ tr → tr.indexOf Event.buildClient < tr.indexOf Event.showDialog

/-! ## Branch analyses of the facade runs -/

/-- Branch analysis of `createTopic`: rejected dialog, unavailable client, or
successful execution. -/
theorem createTopic_cases (env : Env) (st : WState) (p : CreateTopicParams) :
    (env.dialogConfirmed = false ∧
      (createTopic env st p).result = .error topicErr ∧
      (createTopic env st p).trace = [Event.showDialog]) ∨
    (env.dialogConfirmed = true ∧ env.clientOk = false ∧
      (createTopic env st p).result = .error topicErr ∧
      (createTopic env st p).trace = [Event.showDialog, Event.buildClient]) ∨
    (env.dialogConfirmed = true ∧ env.clientOk = true ∧
      (createTopic env st p).result = .ok env.receipt ∧
      (createTopic env st p).trace =
        [Event.showDialog, Event.buildClient, Event.execCommand]) := by
  cases hd : env.dialogConfirmed <;> cases hc : env.clientOk <;>
    simp [createTopic, hd, hc]

/-- Branch analysis of `associateTokens`. -/
theorem associateTokens_cases (env : Env) (st : WState) (p : AssociateTokensParams) :
    (env.dialogConfirmed = false ∧
      (associateTokens env st p).result = .error assocErr ∧
      (associateTokens env st p).trace = [Event.showDialog]) ∨
    (env.dialogConfirmed = true ∧ env.clientOk = false ∧
      (associateTokens env st p).result = .error assocErr ∧
      (associateTokens env st p).trace = [Event.showDialog, Event.buildClient]) ∨
    (env.dialogConfirmed = true ∧ env.clientOk = true ∧
      (associateTokens env st p).result = .ok env.receipt ∧
      (associateTokens env st p).trace =
        [Event.showDialog, Event.buildClient, Event.execCommand]) := by
  cases hd : env.dialogConfirmed <;> cases hc : env.clientOk <;>
    simp [associateTokens, hd, hc]

/-- Branch analysis of `updateTokenFeeSchedule`. -/
theorem updateTokenFeeSchedule_cases (env : Env) (st : WState)
    (p : UpdateTokenFeeScheduleParams) :
    (p.customFees = none ∧
      (updateTokenFeeSchedule env st p).result =
        .error ⟨.invalidParams, "null custom fee schedule given"⟩ ∧
      (updateTokenFeeSchedule env st p).trace = []) ∨
    (p.customFees ≠ none ∧ env.dialogConfirmed = false ∧
      (updateTokenFeeSchedule env st p).result = .error updateFeeErr ∧
      (updateTokenFeeSchedule env st p).trace = [Event.mirrorLookup, Event.showDialog]) ∨
    (p.customFees ≠ none ∧ env.dialogConfirmed = true ∧
      (updateTokenFeeSchedule env st p).result = .error updateFeeErr ∧
      (updateTokenFeeSchedule env st p).trace =
        [Event.mirrorLookup, Event.showDialog, Event.buildClient]) ∨
    (p.customFees ≠ none ∧ env.dialogConfirmed = true ∧
      env.clientOk = true ∧ env.privateKeyOk = true ∧
      (updateTokenFeeSchedule env st p).result = .ok env.receipt ∧
      (updateTokenFeeSchedule env st p).trace =
        [Event.mirrorLookup, Event.showDialog, Event.buildClient, Event.execCommand]) := by
  cases hf : p.customFees with
  | none => simp [updateTokenFeeSchedule, hf]
  | some fees =>
    cases hd : env.dialogConfirmed <;> cases hc : env.clientOk <;>
      cases hp : env.privateKeyOk <;>
      simp [updateTokenFeeSchedule, hf, hd, hc, hp]

/-- Branch analysis of `completeSwap`. -/
theorem completeSwap_cases (env : Env) (st : WState) (p : CompleteSwapParams) :
    (env.clientOk = false ∧
      (completeSwap env st p).result = .error clientNullErr ∧
      (completeSwap env st p).trace = [Event.buildClient]) ∨
    (env.clientOk = true ∧ env.dialogConfirmed = false ∧
      (completeSwap env st p).result = .error completeErr ∧
      (completeSwap env st p).trace = [Event.buildClient, Event.showDialog]) ∨
    (env.clientOk = true ∧ env.dialogConfirmed = true ∧
      (completeSwap env st p).result = .ok env.receipt ∧
      (completeSwap env st p).trace =
        [Event.buildClient, Event.showDialog, Event.execCommand]) := by
  cases hk : env.clientOk <;> cases hd : env.dialogConfirmed <;>
    simp [completeSwap, hk, hd]

/-- Branch analysis of `stakeHbar`. -/
theorem stakeHbar_cases (env : Env) (st : WState) (p : StakeHbarParams) :
    ((stakeHbar env st p).result = .error stakeErr ∧
      (stakeHbar env st p).trace = [] ∧ (stakeHbar env st p).persisted = none) ∨
    (env.dialogConfirmed = false ∧
      (stakeHbar env st p).result = .error stakeErr ∧
      (stakeHbar env st p).trace = [Event.showDialog] ∧
      (stakeHbar env st p).persisted = none) ∨
    (env.dialogConfirmed = true ∧ env.clientOk = false ∧
      (stakeHbar env st p).result = .error stakeErr ∧
      (stakeHbar env st p).trace = [Event.showDialog, Event.buildClient] ∧
      (stakeHbar env st p).persisted = none) ∨
    (env.dialogConfirmed = true ∧ env.clientOk = true ∧
      (stakeHbar env st p).result = .ok env.receipt ∧
      (stakeHbar env st p).trace =
        [Event.showDialog, Event.buildClient, Event.execCommand, Event.persistState] ∧
      ∃ si, (stakeHbar env st p).persisted = some si) := by
  rcases hn : p.nodeId with _ | n
  · rcases ha : p.accountId with _ | a
    · cases hd : env.dialogConfirmed <;> cases hc : env.clientOk <;>
        simp [stakeHbar, stakeDialogPart, hn, ha, hd, hc]
    · rcases eq_or_ne a "" with hae | hae <;>
        cases hd : env.dialogConfirmed <;> cases hc : env.clientOk <;>
        simp [stakeHbar, stakeDialogPart, hn, ha, hd, hc, hae]
  · rcases ha : p.accountId with _ | a
    · cases hi : env.nodeStakingInfo n
      · simp [stakeHbar, hn, ha, hi]
      · cases hd : env.dialogConfirmed <;> cases hc : env.clientOk <;>
          simp [stakeHbar, stakeDialogPart, hn, ha, hi, hd, hc]
    · simp [stakeHbar, hn, ha]

/-- Branch analysis of `initiateSwap`. -/
theorem initiateSwap_cases (env : Env) (st : WState) (p : InitiateSwapParams) :
    (env.clientOk = false ∧
      (initiateSwap env st p).result = .error clientNullErr ∧
      (initiateSwap env st p).trace = [Event.buildClient] ∧
      (initiateSwap env st p).commandArgs = none) ∨
    (env.clientOk = true ∧
      (∃ e, swapLoop env st.hederaAccountId
          (applyFees (p.serviceFee.getD ⟨0, "0.0.98"⟩).percentageCut (p.atomicSwaps.getD []) []).2
          (applyFees (p.serviceFee.getD ⟨0, "0.0.98"⟩).percentageCut (p.atomicSwaps.getD []) []).1
          0 = .error e) ∧
      (initiateSwap env st p).result = .error swapErr ∧
      (initiateSwap env st p).trace = [Event.buildClient] ∧
      (initiateSwap env st p).commandArgs = none) ∨
    (env.clientOk = true ∧ env.dialogConfirmed = false ∧
      (initiateSwap env st p).result = .error swapErr ∧
      (initiateSwap env st p).trace = [Event.buildClient, Event.showDialog] ∧
      (initiateSwap env st p).commandArgs = none) ∨
    (env.clientOk = true ∧ env.dialogConfirmed = true ∧
      (initiateSwap env st p).result = .ok env.receipt ∧
      (initiateSwap env st p).trace =
        [Event.buildClient, Event.showDialog, Event.execCommand] ∧
      ∃ sw frag log,
        swapLoop env st.hederaAccountId
          (applyFees (p.serviceFee.getD ⟨0, "0.0.98"⟩).percentageCut (p.atomicSwaps.getD []) []).2
          (applyFees (p.serviceFee.getD ⟨0, "0.0.98"⟩).percentageCut (p.atomicSwaps.getD []) []).1
          0 = .ok (sw, frag, log) ∧
        (initiateSwap env st p).commandArgs =
          some ⟨sw, p.memo, p.maxFee,
            (applyFees (p.serviceFee.getD ⟨0, "0.0.98"⟩).percentageCut (p.atomicSwaps.getD []) []).2,
            (p.serviceFee.getD ⟨0, "0.0.98"⟩).toAddress⟩ ∧
        (initiateSwap env st p).dialogLog = log) := by
  cases hk : env.clientOk with
  | false => simp [initiateSwap, hk]
  | true =>
    cases hL : swapLoop env st.hederaAccountId
        (applyFees (p.serviceFee.getD ⟨0, "0.0.98"⟩).percentageCut (p.atomicSwaps.getD []) []).2
        (applyFees (p.serviceFee.getD ⟨0, "0.0.98"⟩).percentageCut (p.atomicSwaps.getD []) []).1
        0 with
    | error e => simp [initiateSwap, hk, hL]
    | ok v =>
      obtain ⟨sw, frag, log⟩ := v
      cases hd : env.dialogConfirmed <;>
        simp [initiateSwap, hk, hL, hd]

/-! ## Helper lemmas -/

/-- An error run satisfies `rejectSpec` when its error class is
`transactionRejected` and the command never executed. -/
theorem rejectSpec_error {c : Bool} {e : RpcError} {tr : List Event}
    (he : e.code = RpcErrorCode.transactionRejected) (hx : Event.execCommand ∉ tr) :
    rejectSpec c (.error e) tr := by
  refine ⟨fun _ _ => ⟨?_, hx⟩, fun hmem => absurd hmem hx⟩
  simp [errCode, he]

/-- `rejectSpec` holds vacuously when neither the dialog nor the command
occurred. -/
theorem rejectSpec_vacuous {c : Bool} {res : Except RpcError TxRecord} {tr : List Event}
    (hd : Event.showDialog ∉ tr) (hx : Event.execCommand ∉ tr) :
    rejectSpec c res tr :=
  ⟨fun hmem => absurd hmem hd, fun hmem => absurd hmem hx⟩

/-- A successful run satisfies `rejectSpec` when the dialog was confirmed. -/
theorem rejectSpec_ok {c : Bool} {r : TxRecord} {tr : List Event}
    (hc : c = true) : rejectSpec c (.ok r) tr := by
  refine ⟨fun _ hf => ?_, fun _ => hc⟩
  rw [hc] at hf
  exact absurd hf (by simp)

/-- `createTxDialog` never changes the `to` account nor the amount of a
transfer. -/
theorem createTxDialog_ok (env : Env) (sender : String) (t : SimpleTransfer)
    (fees : List (String × ℚ)) (isReq : Bool) (t1 : SimpleTransfer) (frag : List PanelElem)
    (h : createTxDialog env sender t fees isReq = .ok (t1, frag)) :
    t1.toAcct = t.toAcct ∧ t1.amount = t.amount := by
  simp only [createTxDialog] at h
  split at h
  · exact absurd h (by simp)
  · split at h
    · simp only [Except.ok.injEq, Prod.mk.injEq] at h
      rw [← h.1]
      exact ⟨rfl, rfl⟩
    · split at h
      · exact absurd h (by simp)
      · simp only [Except.ok.injEq, Prod.mk.injEq] at h
        rw [← h.1]
        exact ⟨rfl, rfl⟩

/-- Unfolding of `swapLoop` on a successful run: the dialog log records, per
swap, the wallet account as requester sender and the requester `to` account
as responder sender; every returned responder transfer is redirected to the
wallet account; the transfer amounts are returned unchanged. -/
theorem swapLoop_ok (env : Env) (hAcc : String) (fees : List (String × ℚ)) :
    ∀ (swaps : List AtomicSwap) (n : Nat) (sw : List AtomicSwap)
      (frag : List PanelElem) (log : List (String × Bool)),
      swapLoop env hAcc fees swaps n = .ok (sw, frag, log) →
      log = expectedDialogLog hAcc swaps ∧
      (∀ s ∈ sw, s.responder.toAcct = hAcc) ∧
      sw.map (fun s => (s.requester.amount, s.responder.amount)) =
        swaps.map (fun s => (s.requester.amount, s.responder.amount)) := by
  intro swaps
  induction swaps with
  | nil =>
    intro n sw frag log h
    simp only [swapLoop, Except.ok.injEq, Prod.mk.injEq] at h
    obtain ⟨h1, h2, h3⟩ := h
    subst h1; subst h2; subst h3
    simp [expectedDialogLog]
  | cons swap rest ih =>
    intro n sw frag log h
    rw [swapLoop] at h
    cases hr : createTxDialog env hAcc swap.requester fees true with
    | error e => rw [hr] at h; exact absurd h (by simp)
    | ok v =>
      obtain ⟨req1, fragR⟩ := v
      rw [hr] at h
      cases hs : createTxDialog env req1.toAcct
          { swap.responder with toAcct := hAcc } fees false with
      | error e => simp only [hs] at h; exact absurd h (by simp)
      | ok w =>
        obtain ⟨resp1, fragS⟩ := w
        simp only [hs] at h
        cases hl : swapLoop env hAcc fees rest (n + 1) with
        | error e => simp only [hl] at h; exact absurd h (by simp)
        | ok u =>
          obtain ⟨rest1, frags, logs⟩ := u
          simp only [hl, Except.ok.injEq, Prod.mk.injEq] at h
          obtain ⟨hsw, _, hlog⟩ := h
          obtain ⟨ihlog, ihresp, ihamt⟩ := ih (n + 1) rest1 frags logs hl
          obtain ⟨hrTo, hrAmt⟩ := createTxDialog_ok _ _ _ _ _ _ _ hr
          obtain ⟨hsTo, hsAmt⟩ := createTxDialog_ok _ _ _ _ _ _ _ hs
          subst hsw; subst hlog
          refine ⟨?_, ?_, ?_⟩
          · simp [expectedDialogLog, hrTo, ihlog]
          · intro s hmem
            rcases List.mem_cons.mp hmem with rfl | hmem2
            · simpa using hsTo
            · exact ihresp s hmem2
          · simp only [List.map_cons, ihamt, hrAmt]
            simp [hsAmt]

/-- `feeStep` never changes the `to` account of a transfer. -/
theorem feeStep_toAcct (cut : ℚ) (acc : List (String × ℚ)) (t : SimpleTransfer) :
    (feeStep cut acc t).1.toAcct = t.toAcct := rfl

/-- `applyFees` never changes the requester `to` accounts. -/
theorem applyFees_reqToAcct (cut : ℚ) :
    ∀ (swaps : List AtomicSwap) (acc : List (String × ℚ)),
      ((applyFees cut swaps acc).1.map fun s => s.requester.toAcct) =
        swaps.map fun s => s.requester.toAcct := by
  intro swaps
  induction swaps with
  | nil => intro acc; simp [applyFees]
  | cons s rest ih =>
    intro acc
    simp [applyFees, feeStep_toAcct, ih]

/-- `expectedDialogLog` depends only on the requester `to` accounts. -/
theorem expectedDialogLog_map (hAcc : String) :
    ∀ (xs ys : List AtomicSwap),
      (xs.map fun s => s.requester.toAcct) = (ys.map fun s => s.requester.toAcct) →
      expectedDialogLog hAcc xs = expectedDialogLog hAcc ys := by
  intro xs
  induction xs with
  | nil =>
    intro ys h
    cases ys with
    | nil => rfl
    | cons y ys' => exact absurd h (by simp)
  | cons x xs' ih =>
    intro ys h
    cases ys with
    | nil => exact absurd h (by simp)
    | cons y ys' =>
      simp only [List.map_cons, List.cons.injEq] at h
      simp [expectedDialogLog, h.1, ih ys' h.2]

/-- `toFixed2` of zero is zero. -/
theorem toFixed2_zero : toFixed2 0 = 0 := by decide

/-- At a zero percentage cut `feeStep` leaves the transfer amount
unchanged. -/
theorem feeStep_zero_amount (acc : List (String × ℚ)) (t : SimpleTransfer) :
    (feeStep 0 acc t).1.amount = t.amount := by
  show t.amount - toFixed2 (t.amount * (0 / 100)) / 2 = t.amount
  rw [show t.amount * ((0 : ℚ) / 100) = 0 by ring, toFixed2_zero]
  ring

/-- `recSet` preserves a value-wise invariant when the written value
satisfies it. -/
theorem recSet_forall (P : ℚ → Prop) (m : List (String × ℚ)) (k : String) (v : ℚ)
    (hm : ∀ e ∈ m, P e.2) (hv : P v) : ∀ e ∈ recSet m k v, P e.2 := by
  intro e he
  unfold recSet at he
  split at he
  · obtain ⟨x, hx, hxe⟩ := List.mem_map.mp he
    by_cases hk : x.1 == k
    · rw [if_pos hk] at hxe
      rw [← hxe]
      exact hv
    · rw [if_neg hk] at hxe
      rw [← hxe]
      exact hm x hx
  · rcases List.mem_append.mp he with h | h
    · exact hm e h
    · simp only [List.mem_singleton] at h
      rw [h]
      exact hv

/-- Reading a record all of whose entries are zero yields zero (with the JS
`undefined`-as-zero default of the fee accumulation). -/
theorem recGet_zero (m : List (String × ℚ)) (k : String)
    (hm : ∀ e ∈ m, e.2 = 0) : (recGet m k).getD 0 = 0 := by
  unfold recGet
  cases hf : m.find? (fun p => p.1 == k) with
  | none => simp
  | some e =>
    have he := hm e (List.mem_of_find?_eq_some hf)
    simp [he]

/-- At a zero percentage cut every entry of the fee accumulator stays
zero. -/
theorem feeStep_zero_acc (acc : List (String × ℚ)) (t : SimpleTransfer)
    (hm : ∀ e ∈ acc, e.2 = 0) : ∀ e ∈ (feeStep 0 acc t).2, e.2 = 0 := by
  show ∀ e ∈ recSet _ _ _, e.2 = 0
  have hfee : toFixed2 (t.amount * (0 / 100)) = 0 := by
    rw [show t.amount * ((0 : ℚ) / 100) = 0 by ring, toFixed2_zero]
  have hacc1 : ∀ e ∈ (if optFalsy (recGet acc t.assetType) then
      recSet acc (if t.assetType == "HBAR" then "HBAR" else t.assetId.getD "undefined") 0
      else acc), e.2 = 0 := by
    split
    · exact recSet_forall (fun x => x = 0) _ _ _ hm rfl
    · exact hm
  refine recSet_forall (fun x => x = 0) _ _ _ hacc1 ?_
  rw [hfee, recGet_zero _ _ hacc1]
  norm_num

/-- At a zero percentage cut `applyFees` keeps every transfer amount and
keeps every accumulator entry zero. -/
theorem applyFees_zero :
    ∀ (swaps : List AtomicSwap) (acc : List (String × ℚ)),
      (∀ e ∈ acc, e.2 = 0) →
      ((applyFees 0 swaps acc).1.map
          (fun s => (s.requester.amount, s.responder.amount)) =
        swaps.map (fun s => (s.requester.amount, s.responder.amount))) ∧
      (∀ e ∈ (applyFees 0 swaps acc).2, e.2 = 0) := by
  intro swaps
  induction swaps with
  | nil => intro acc hm; exact ⟨by simp [applyFees], by simpa [applyFees] using hm⟩
  | cons s rest ih =>
    intro acc hm
    have h1 := feeStep_zero_acc acc s.requester hm
    have h2 := feeStep_zero_acc (feeStep 0 acc s.requester).2 s.responder h1
    obtain ⟨iha, ihb⟩ := ih (feeStep 0 (feeStep 0 acc s.requester).2 s.responder).2 h2
    constructor
    · simp [applyFees, feeStep_zero_amount, iha]
    · simpa [applyFees] using ihb

/-- The panel of `associateTokens` is `assocPanel` on every branch. -/
theorem associateTokens_panel (env : Env) (st : WState) (p : AssociateTokensParams) :
    (associateTokens env st p).panel = assocPanel env (p.tokenIds.getD []) := by
  cases hd : env.dialogConfirmed <;> cases hc : env.clientOk <;>
    simp [associateTokens, hd, hc]

/-- Every element of a token panel section appears in the full loop panel. -/
theorem assocLoop_mem (env : Env) (tids0 : List String) :
    ∀ (tids : List String) (tid : String), tid ∈ tids →
      ∀ x ∈ assocTokenPanel env tids0 tid, x ∈ assocLoop env tids0 tids := by
  intro tids
  induction tids with
  | nil => intro tid htid; exact absurd htid (by simp)
  | cons t rest ih =>
    intro tid htid x hx
    rcases List.mem_cons.mp htid with rfl | hmem
    · exact List.mem_append_left _ hx
    · exact List.mem_append_right _ (ih tid hmem x hx)

/-! ## Claim theorems -/

/-- C1 (code bug witness): in `initiateSwap`, the service fee of each transfer
is `Number((amount * (percentageCut / 100)).toFixed(2))` — at amount `100` and
a 10 percent cut the fee of each of the two transfers of token `0.0.1234` is
`10` — yet the resulting `serviceFeesToPay` entry for that token holds only
the fee of the last transfer (`10`), not the accumulated `20`: the guard
`!acc[transfer.assetType]` checks the `assetType` key (never written for
non-HBAR transfers), so the entry keyed by the assetId is reset to `0` on
every iteration before the fee is added. -/
theorem c1_fee_accumulator_reset :
    toFixed2 (100 * ((10 : ℚ) / 100)) = 10 ∧
    (applyFees 10 [c1Swap] []).2 = [("0.0.1234", 10)] ∧
    (applyFees 10 [c1Swap] []).2 ≠ [("0.0.1234", 20)] :=
  ⟨by decide, by decide, by decide⟩

/-- C2: for every facade operation, when the confirmation dialog was shown
and the user did not confirm it the operation fails with a
`transactionRejected` error and the command is never executed, and the
command executes only after the dialog returned confirmation. -/
theorem c2_reject_means_no_command (env : Env) (st : WState)
    (p1 : CreateTopicParams) (p2 : AssociateTokensParams) (p3 : StakeHbarParams)
    (p4 : UpdateTokenFeeScheduleParams) (p5 : InitiateSwapParams) (p6 : CompleteSwapParams) :
    rejectSpec env.dialogConfirmed (createTopic env st p1).result (createTopic env st p1).trace ∧
    rejectSpec env.dialogConfirmed (associateTokens env st p2).result (associateTokens env st p2).trace ∧
    rejectSpec env.dialogConfirmed (stakeHbar env st p3).result (stakeHbar env st p3).trace ∧
    rejectSpec env.dialogConfirmed (updateTokenFeeSchedule env st p4).result
      (updateTokenFeeSchedule env st p4).trace ∧
    rejectSpec env.dialogConfirmed (initiateSwap env st p5).result (initiateSwap env st p5).trace ∧
    rejectSpec env.dialogConfirmed (completeSwap env st p6).result (completeSwap env st p6).trace := by
  refine ⟨?_, ?_, ?_, ?_, ?_, ?_⟩
  · rcases createTopic_cases env st p1 with ⟨hd, hr, ht⟩ | ⟨hd, _, hr, ht⟩ | ⟨hd, _, hr, ht⟩ <;>
      rw [hr, ht]
    · exact rejectSpec_error rfl (by decide)
    · exact rejectSpec_error rfl (by decide)
    · exact rejectSpec_ok hd
  · rcases associateTokens_cases env st p2 with ⟨hd, hr, ht⟩ | ⟨hd, _, hr, ht⟩ | ⟨hd, _, hr, ht⟩ <;>
      rw [hr, ht]
    · exact rejectSpec_error rfl (by decide)
    · exact rejectSpec_error rfl (by decide)
    · exact rejectSpec_ok hd
  · rcases stakeHbar_cases env st p3 with ⟨hr, ht, _⟩ | ⟨hd, hr, ht, _⟩ | ⟨hd, _, hr, ht, _⟩ |
      ⟨hd, _, hr, ht, _⟩ <;> rw [hr, ht]
    · exact rejectSpec_error rfl (by decide)
    · exact rejectSpec_error rfl (by decide)
    · exact rejectSpec_error rfl (by decide)
    · exact rejectSpec_ok hd
  · rcases updateTokenFeeSchedule_cases env st p4 with ⟨_, hr, ht⟩ | ⟨_, hd, hr, ht⟩ |
      ⟨_, hd, hr, ht⟩ | ⟨_, hd, _, _, hr, ht⟩ <;> rw [hr, ht]
    · exact rejectSpec_vacuous (by decide) (by decide)
    · exact rejectSpec_error rfl (by decide)
    · exact rejectSpec_error rfl (by decide)
    · exact rejectSpec_ok hd
  · rcases initiateSwap_cases env st p5 with ⟨_, hr, ht, _⟩ | ⟨_, _, hr, ht, _⟩ |
      ⟨_, hd, hr, ht, _⟩ | ⟨_, hd, hr, ht, _⟩ <;> rw [hr, ht]
    · exact rejectSpec_vacuous (by decide) (by decide)
    · exact rejectSpec_error rfl (by decide)
    · exact rejectSpec_error rfl (by decide)
    · exact rejectSpec_ok hd
  · rcases completeSwap_cases env st p6 with ⟨_, hr, ht⟩ | ⟨_, hd, hr, ht⟩ | ⟨_, hd, hr, ht⟩ <;>
      rw [hr, ht]
    · exact rejectSpec_vacuous (by decide) (by decide)
    · exact rejectSpec_error rfl (by decide)
    · exact rejectSpec_ok hd

/-- C2 witness: a rejected `createTopic` fixture run fails with
`transactionRejected` and never executes the command. -/
theorem c2_witness :
    errCode (createTopic envRej stOK pTopicW).result = some RpcErrorCode.transactionRejected ∧
    Event.execCommand ∉ (createTopic envRej stOK pTopicW).trace :=
  (c2_reject_means_no_command envRej stOK pTopicW pAssocW pStakeW pFeeSome pSwapW pCompW).1.1
    (by decide) rfl

/-- C3 counterexample: in a confirmed `createTopic` fixture run the
confirmation dialog is shown strictly before the Hedera client is built,
refuting the claimed fixed order "build client, then show dialog". -/
theorem c3_counterexample :
    Event.buildClient ∈ (createTopic envOK stOK pTopicW).trace ∧
    Event.showDialog ∈ (createTopic envOK stOK pTopicW).trace ∧
    (createTopic envOK stOK pTopicW).trace.indexOf Event.showDialog <
      (createTopic envOK stOK pTopicW).trace.indexOf Event.buildClient := by
  decide

/-- C3 (amended): in every facade operation the dialog and the client build
both precede command execution and persistence happens only after command
execution; the client is built before the dialog in `AtomicSwapFacade`
(`initiateSwap`, `completeSwap`) and after the dialog in the other four
facades; only `stakeHbar` persists wallet state. -/
theorem c3_order_amended (env : Env) (st : WState)
    (p1 : CreateTopicParams) (p2 : AssociateTokensParams) (p3 : StakeHbarParams)
    (p4 : UpdateTokenFeeScheduleParams) (p5 : InitiateSwapParams) (p6 : CompleteSwapParams) :
    (orderSpec (createTopic env st p1).trace ∧
      dialogBeforeClient (createTopic env st p1).trace ∧
      Event.persistState ∉ (createTopic env st p1).trace) ∧
    (orderSpec (associateTokens env st p2).trace ∧
      dialogBeforeClient (associateTokens env st p2).trace ∧
      Event.persistState ∉ (associateTokens env st p2).trace) ∧
    (orderSpec (stakeHbar env st p3).trace ∧
      dialogBeforeClient (stakeHbar env st p3).trace) ∧
    (orderSpec (updateTokenFeeSchedule env st p4).trace ∧
      dialogBeforeClient (updateTokenFeeSchedule env st p4).trace ∧
      Event.persistState ∉ (updateTokenFeeSchedule env st p4).trace) ∧
    (orderSpec (initiateSwap env st p5).trace ∧
      clientBeforeDialog (initiateSwap env st p5).trace ∧
      Event.persistState ∉ (initiateSwap env st p5).trace) ∧
    (orderSpec (completeSwap env st p6).trace ∧
      clientBeforeDialog (completeSwap env st p6).trace ∧
      Event.persistState ∉ (completeSwap env st p6).trace) := by
  refine ⟨?_, ?_, ?_, ?_, ?_, ?_⟩
  · rcases createTopic_cases env st p1 with ⟨_, _, ht⟩ | ⟨_, _, _, ht⟩ | ⟨_, _, _, ht⟩ <;>
      rw [ht] <;> simp only [orderSpec, dialogBeforeClient] <;> decide
  · rcases associateTokens_cases env st p2 with ⟨_, _, ht⟩ | ⟨_, _, _, ht⟩ | ⟨_, _, _, ht⟩ <;>
      rw [ht] <;> simp only [orderSpec, dialogBeforeClient] <;> decide
  · rcases stakeHbar_cases env st p3 with ⟨_, ht, _⟩ | ⟨_, _, ht, _⟩ | ⟨_, _, _, ht, _⟩ |
      ⟨_, _, _, ht, _⟩ <;> rw [ht] <;> simp only [orderSpec, dialogBeforeClient] <;> decide
  · rcases updateTokenFeeSchedule_cases env st p4 with ⟨_, _, ht⟩ | ⟨_, _, _, ht⟩ |
      ⟨_, _, _, ht⟩ | ⟨_, _, _, _, _, ht⟩ <;>
      rw [ht] <;> simp only [orderSpec, dialogBeforeClient] <;> decide
  · rcases initiateSwap_cases env st p5 with ⟨_, _, ht, _⟩ | ⟨_, _, _, ht, _⟩ |
      ⟨_, _, _, ht, _⟩ | ⟨_, _, _, ht, _⟩ <;>
      rw [ht] <;> simp only [orderSpec, clientBeforeDialog] <;> decide
  · rcases completeSwap_cases env st p6 with ⟨_, _, ht⟩ | ⟨_, _, _, ht⟩ | ⟨_, _, _, ht⟩ <;>
      rw [ht] <;> simp only [orderSpec, clientBeforeDialog] <;> decide

/-- C3 witness: the amended ordering instantiated on the fixture runs. -/
theorem c3_witness :
    (orderSpec (createTopic envOK stOK pTopicW).trace ∧
      dialogBeforeClient (createTopic envOK stOK pTopicW).trace ∧
      Event.persistState ∉ (createTopic envOK stOK pTopicW).trace) ∧
    (orderSpec (associateTokens envOK stOK pAssocW).trace ∧
      dialogBeforeClient (associateTokens envOK stOK pAssocW).trace ∧
      Event.persistState ∉ (associateTokens envOK stOK pAssocW).trace) ∧
    (orderSpec (stakeHbar envOK stOK pStakeW).trace ∧
      dialogBeforeClient (stakeHbar envOK stOK pStakeW).trace) ∧
    (orderSpec (updateTokenFeeSchedule envOK stOK pFeeSome).trace ∧
      dialogBeforeClient (updateTokenFeeSchedule envOK stOK pFeeSome).trace ∧
      Event.persistState ∉ (updateTokenFeeSchedule envOK stOK pFeeSome).trace) ∧
    (orderSpec (initiateSwap envOK stOK pSwapW).trace ∧
      clientBeforeDialog (initiateSwap envOK stOK pSwapW).trace ∧
      Event.persistState ∉ (initiateSwap envOK stOK pSwapW).trace) ∧
    (orderSpec (completeSwap envOK stOK pCompW).trace ∧
      clientBeforeDialog (completeSwap envOK stOK pCompW).trace ∧
      Event.persistState ∉ (completeSwap envOK stOK pCompW).trace) :=
  c3_order_amended envOK stOK pTopicW pAssocW pStakeW pFeeSome pSwapW pCompW

/-- C4: whenever a facade operation returns normally, the returned value is
exactly the receipt produced by the delegated command execution, with no
modification by the facade. -/
theorem c4_receipt_passthrough (env : Env) (st : WState)
    (p1 : CreateTopicParams) (p2 : AssociateTokensParams) (p3 : StakeHbarParams)
    (p4 : UpdateTokenFeeScheduleParams) (p5 : InitiateSwapParams) (p6 : CompleteSwapParams)
    (r : TxRecord) :
    ((createTopic env st p1).result = .ok r → r = env.receipt) ∧
    ((associateTokens env st p2).result = .ok r → r = env.receipt) ∧
    ((stakeHbar env st p3).result = .ok r → r = env.receipt) ∧
    ((updateTokenFeeSchedule env st p4).result = .ok r → r = env.receipt) ∧
    ((initiateSwap env st p5).result = .ok r → r = env.receipt) ∧
    ((completeSwap env st p6).result = .ok r → r = env.receipt) := by
  refine ⟨?_, ?_, ?_, ?_, ?_, ?_⟩
  · intro h
    rcases createTopic_cases env st p1 with ⟨_, hr, _⟩ | ⟨_, _, hr, _⟩ | ⟨_, _, hr, _⟩ <;>
      rw [hr] at h <;> simp at h <;> exact h.symm
  · intro h
    rcases associateTokens_cases env st p2 with ⟨_, hr, _⟩ | ⟨_, _, hr, _⟩ | ⟨_, _, hr, _⟩ <;>
      rw [hr] at h <;> simp at h <;> exact h.symm
  · intro h
    rcases stakeHbar_cases env st p3 with ⟨hr, _, _⟩ | ⟨_, hr, _, _⟩ | ⟨_, _, hr, _, _⟩ |
      ⟨_, _, hr, _, _⟩ <;> rw [hr] at h <;> simp at h <;> exact h.symm
  · intro h
    rcases updateTokenFeeSchedule_cases env st p4 with ⟨_, hr, _⟩ | ⟨_, _, hr, _⟩ |
      ⟨_, _, hr, _⟩ | ⟨_, _, _, _, hr, _⟩ <;> rw [hr] at h <;> simp at h <;> exact h.symm
  · intro h
    rcases initiateSwap_cases env st p5 with ⟨_, hr, _, _⟩ | ⟨_, _, hr, _, _⟩ |
      ⟨_, _, hr, _, _⟩ | ⟨_, _, hr, _, _⟩ <;> rw [hr] at h <;> simp at h <;> exact h.symm
  · intro h
    rcases completeSwap_cases env st p6 with ⟨_, hr, _⟩ | ⟨_, _, hr, _⟩ | ⟨_, _, hr, _⟩ <;>
      rw [hr] at h <;> simp at h <;> exact h.symm

/-- C4 witness: the fixture `createTopic` run returns the fixture receipt. -/
theorem c4_witness : txR = envOK.receipt :=
  (c4_receipt_passthrough envOK stOK pTopicW pAssocW pStakeW pFeeSome pSwapW pCompW txR).1 rfl

/-- C10: `updateTokenFeeSchedule` called with `customFees` undefined fails
with the `invalidParams` error `null custom fee schedule given` before any
effect at all (empty trace: no mirror-node lookup, no dialog, no client, no
command); with any defined `customFees` the guard passes — the run starts
with the mirror-node token lookup and never produces that guard error. -/
theorem c10_customFees_guard (env : Env) (st : WState) (p : UpdateTokenFeeScheduleParams) :
    (p.customFees = none →
      (updateTokenFeeSchedule env st p).result =
        .error ⟨.invalidParams, "null custom fee schedule given"⟩ ∧
      (updateTokenFeeSchedule env st p).trace = []) ∧
    (∀ fees, p.customFees = some fees →
      Event.mirrorLookup ∈ (updateTokenFeeSchedule env st p).trace ∧
      (updateTokenFeeSchedule env st p).result ≠
        .error ⟨.invalidParams, "null custom fee schedule given"⟩) := by
  constructor
  · intro h
    simp [updateTokenFeeSchedule, h]
  · intro fees h
    cases hd : env.dialogConfirmed <;> cases hc : env.clientOk <;>
      cases hp : env.privateKeyOk <;>
      simp [updateTokenFeeSchedule, updateFeeErr, h, hd, hc, hp]

/-- C10 witness: the undefined-fee fixture fails with `invalidParams` and an
empty trace; the defined-fee fixture performs the mirror lookup. -/
theorem c10_witness :
    ((updateTokenFeeSchedule envOK stOK pFeeNone).result =
        .error ⟨.invalidParams, "null custom fee schedule given"⟩ ∧
      (updateTokenFeeSchedule envOK stOK pFeeNone).trace = []) ∧
    (Event.mirrorLookup ∈ (updateTokenFeeSchedule envOK stOK pFeeSome).trace ∧
      (updateTokenFeeSchedule envOK stOK pFeeSome).result ≠
        .error ⟨.invalidParams, "null custom fee schedule given"⟩) :=
  ⟨(c10_customFees_guard envOK stOK pFeeNone).1 rfl,
   (c10_customFees_guard envOK stOK pFeeSome).2 [] rfl⟩

/-- C7 counterexample: with `accountId` provided as the empty string the
`stakeHbar` fixture run succeeds, but the persisted `stakedAccountId` keeps
the previously stored value `0.0.5` instead of being set to the given account
id, because the assignment is guarded by `!_.isEmpty(accountId)`. -/
theorem c7_counterexample :
    (stakeHbar envOK stOK pStakeEmpty).result = .ok txR ∧
    pStakeEmpty.accountId = some "" ∧
    (stakeHbar envOK stOK pStakeEmpty).persisted = some ⟨some "0.0.5", none, false⟩ ∧
    (some "0.0.5" : Option String) ≠ some "" :=
  ⟨rfl, rfl, rfl, by decide⟩

/-- C7 (amended): after a successful `stakeHbar` transaction the staking info
is persisted via `SnapState.updateState`, with `stakedNodeId` set to
`String(nodeId)` when a node id was provided, `stakedAccountId` set to the
given account id when a nonempty account id was provided (an empty string
leaves the previously stored value), and `declineStakingReward` set to `true`
when both ids are null (unstaking) and to `false` otherwise. -/
theorem c7_staking_persistence (env : Env) (st : WState) (p : StakeHbarParams) (r : TxRecord)
    (h : (stakeHbar env st p).result = .ok r) :
    Event.persistState ∈ (stakeHbar env st p).trace ∧
    ∃ si, (stakeHbar env st p).persisted = some si ∧
      (∀ n, p.nodeId = some n → si.stakedNodeId = some (toString n)) ∧
      (∀ a, p.accountId = some a → a ≠ "" → si.stakedAccountId = some a) ∧
      (p.nodeId = none ∧ p.accountId = none → si.declineStakingReward = true) ∧
      (¬(p.nodeId = none ∧ p.accountId = none) → si.declineStakingReward = false) := by
  rcases hn : p.nodeId with _ | n
  · rcases ha : p.accountId with _ | a
    · cases hd : env.dialogConfirmed <;> cases hc : env.clientOk <;>
        simp_all [stakeHbar, stakeDialogPart, hn, ha]
    · rcases eq_or_ne a "" with hae | hae <;>
        cases hd : env.dialogConfirmed <;> cases hc : env.clientOk <;>
        simp_all [stakeHbar, stakeDialogPart, hn, ha, hae]
  · rcases ha : p.accountId with _ | a
    · cases hi : env.nodeStakingInfo n
      · simp_all [stakeHbar, hn, ha, hi]
      · cases hd : env.dialogConfirmed <;> cases hc : env.clientOk <;>
          simp_all [stakeHbar, stakeDialogPart, hn, ha, hi]
    · simp_all [stakeHbar, hn, ha]

/-- C7 witness: the fixture staking run persists its updated staking info
(account `0.0.3`, rewards not declined). -/
theorem c7_witness :
    Event.persistState ∈ (stakeHbar envOK stOK pStakeW).trace ∧
    (stakeHbar envOK stOK pStakeW).persisted = some ⟨some "0.0.3", none, false⟩ :=
  ⟨(c7_staking_persistence envOK stOK pStakeW txR rfl).1, rfl⟩

/-- C8: whenever `initiateSwap` shows its confirmation dialog the panel
contains the notice that the responder must approve the swap by calling the
`hts/completeSwap` API within 30 minutes or the transaction will fail, and
whenever `completeSwap` shows its dialog the panel contains the notice that
all parties involved must approve within 30 minutes or the transaction will
fail. -/
theorem c8_dialog_notices (env : Env) (st : WState)
    (p : InitiateSwapParams) (q : CompleteSwapParams) :
    (Event.showDialog ∈ (initiateSwap env st p).trace →
      PanelElem.text initiateSwapNotice ∈ (initiateSwap env st p).panel) ∧
    (Event.showDialog ∈ (completeSwap env st q).trace →
      PanelElem.text completeSwapNotice ∈ (completeSwap env st q).panel) := by
  constructor
  · cases hk : env.clientOk with
    | false => simp [initiateSwap, hk]
    | true =>
      cases hL : swapLoop env st.hederaAccountId
          (applyFees (p.serviceFee.getD ⟨0, "0.0.98"⟩).percentageCut (p.atomicSwaps.getD []) []).2
          (applyFees (p.serviceFee.getD ⟨0, "0.0.98"⟩).percentageCut (p.atomicSwaps.getD []) []).1
          0 with
      | error e => simp [initiateSwap, hk, hL]
      | ok v =>
        obtain ⟨sw, frag, log⟩ := v
        cases hd : env.dialogConfirmed <;>
          simp [initiateSwap, swapBasePanel, hk, hL, hd]
  · cases hk : env.clientOk <;> cases hd : env.dialogConfirmed <;>
      simp [completeSwap, hk, hd]

/-- C8 witness: both fixture dialogs contain their 30-minute notice. -/
theorem c8_witness :
    PanelElem.text initiateSwapNotice ∈ (initiateSwap envOK stOK pSwapW).panel ∧
    PanelElem.text completeSwapNotice ∈ (completeSwap envOK stOK pCompW).panel :=
  ⟨(c8_dialog_notices envOK stOK pSwapW pCompW).1 (by decide),
   (c8_dialog_notices envOK stOK pSwapW pCompW).2 (by decide)⟩

/-- C9: for every token id of an `associateTokens` request the run still
shows the confirmation dialog; when the mirror-node lookup is empty the panel
contains the warning texts, and when it succeeds the panel contains the token
name, type, symbol, and its total and max supply each divided by ten to the
power of the token decimals. -/
theorem c9_token_lookup_panel (env : Env) (st : WState) (p : AssociateTokensParams)
    (tid : String) (h : tid ∈ p.tokenIds.getD []) :
    Event.showDialog ∈ (associateTokens env st p).trace ∧
    (env.tokenInfo tid = none →
      PanelElem.text ("Error while trying to get token info for " ++ tid
          ++ " from Hedera Mirror Nodes at this time") ∈ (associateTokens env st p).panel ∧
      PanelElem.text "Proceed only if you are sure this asset ID exists" ∈
        (associateTokens env st p).panel) ∧
    (∀ ti, env.tokenInfo tid = some ti →
      PanelElem.text ("Asset Name: " ++ ti.name) ∈ (associateTokens env st p).panel ∧
      PanelElem.text ("Asset Type: " ++ ti.type) ∈ (associateTokens env st p).panel ∧
      PanelElem.text ("Symbol: " ++ ti.symbol) ∈ (associateTokens env st p).panel ∧
      PanelElem.text ("Total Supply: "
          ++ env.numStr (ti.total_supply / 10 ^ ti.decimals)) ∈ (associateTokens env st p).panel ∧
      PanelElem.text ("Max Supply: "
          ++ env.numStr (ti.max_supply / 10 ^ ti.decimals)) ∈ (associateTokens env st p).panel) := by
  have hdlg : Event.showDialog ∈ (associateTokens env st p).trace := by
    rcases associateTokens_cases env st p with ⟨_, _, ht⟩ | ⟨_, _, _, ht⟩ | ⟨_, _, _, ht⟩ <;>
      rw [ht] <;> decide
  have hpanel := associateTokens_panel env st p
  have hsec : ∀ x ∈ assocTokenPanel env (p.tokenIds.getD []) tid,
      x ∈ (associateTokens env st p).panel := by
    intro x hx
    rw [hpanel]
    unfold assocPanel
    exact List.mem_append_right _ (assocLoop_mem env _ _ tid h x hx)
  refine ⟨hdlg, ?_, ?_⟩
  · intro hnone
    constructor <;> apply hsec <;> simp [assocTokenPanel, hnone]
  · intro ti hti
    refine ⟨?_, ?_, ?_, ?_, ?_⟩ <;> apply hsec <;> simp [assocTokenPanel, hti]

/-- C9 witness: the known token of the fixture run contributes its name line
and the unknown token contributes its warning line, and the dialog is
shown. -/
theorem c9_witness :
    Event.showDialog ∈ (associateTokens envTok stOK pAssocW).trace ∧
    PanelElem.text ("Asset Name: " ++ tokW.name) ∈ (associateTokens envTok stOK pAssocW).panel ∧
    PanelElem.text ("Error while trying to get token info for " ++ "0.0.8"
        ++ " from Hedera Mirror Nodes at this time") ∈ (associateTokens envTok stOK pAssocW).panel :=
  ⟨(c9_token_lookup_panel envTok stOK pAssocW "0.0.7" (by decide)).1,
   ((c9_token_lookup_panel envTok stOK pAssocW "0.0.7" (by decide)).2.2 tokW (by decide)).1,
   ((c9_token_lookup_panel envTok stOK pAssocW "0.0.8" (by decide)).2.1 (by decide)).1⟩

/-- C5: whenever `initiateSwap` constructs the `AtomicSwapCommand`, every
swap handed to the command has its responder `to` field overwritten with the
wallet hederaAccountId regardless of the request value, and the per-swap
dialog sections are, in order, a requester section sent from the wallet
account followed by a responder section whose sending account is the
requester `to` account of the request. -/
theorem c5_responder_overwrite (env : Env) (st : WState) (p : InitiateSwapParams)
    (args : AtomicSwapCmdArgs)
    (h : (initiateSwap env st p).commandArgs = some args) :
    (∀ s ∈ args.atomicSwaps, s.responder.toAcct = st.hederaAccountId) ∧
    (initiateSwap env st p).dialogLog =
      expectedDialogLog st.hederaAccountId (p.atomicSwaps.getD []) := by
  rcases initiateSwap_cases env st p with ⟨_, _, _, hc⟩ | ⟨_, _, _, _, hc⟩ |
    ⟨_, _, _, _, hc⟩ | ⟨_, _, _, _, sw, frag, log, hL, hc, hd⟩
  · rw [hc] at h; exact absurd h (by simp)
  · rw [hc] at h; exact absurd h (by simp)
  · rw [hc] at h; exact absurd h (by simp)
  · obtain ⟨hlog, hresp, _⟩ := swapLoop_ok env st.hederaAccountId _ _ _ sw frag log hL
    rw [hc] at h
    injection h with h
    subst h
    refine ⟨hresp, ?_⟩
    rw [hd, hlog]
    exact expectedDialogLog_map st.hederaAccountId _ _ (applyFees_reqToAcct _ _ _)

/-- C5 witness: the fixture swap run logs a requester section sent from the
wallet account `0.0.100` and a responder section sent from the request
requester `to` account `0.0.200`. -/
theorem c5_witness :
    (initiateSwap envOK stOK pSwapW).dialogLog =
      expectedDialogLog stOK.hederaAccountId (pSwapW.atomicSwaps.getD []) :=
  (c5_responder_overwrite envOK stOK pSwapW swapArgsW rfl).2

/-- C6: when `initiateSwap` is called with `serviceFee` omitted (so the
percentage cut defaults to zero) or with a zero percentage cut, the computed
fee of every transfer is zero: the fee reduce leaves every amount unchanged,
every entry of the `serviceFeesToPay` record is zero, and the command is
constructed with exactly the request amounts together with that all-zero fee
record. -/
theorem c6_zero_fee (env : Env) (st : WState) (p : InitiateSwapParams)
    (hcut : (p.serviceFee.getD ⟨0, "0.0.98"⟩).percentageCut = 0) :
    (∀ (acc : List (String × ℚ)) (t : SimpleTransfer),
      (feeStep 0 acc t).1.amount = t.amount) ∧
    (∀ e ∈ (applyFees 0 (p.atomicSwaps.getD []) []).2, e.2 = 0) ∧
    (∀ args, (initiateSwap env st p).commandArgs = some args →
      (args.serviceFeesToPay = (applyFees 0 (p.atomicSwaps.getD []) []).2 ∧
        ∀ e ∈ args.serviceFeesToPay, e.2 = 0) ∧
      args.atomicSwaps.map (fun s => (s.requester.amount, s.responder.amount)) =
        (p.atomicSwaps.getD []).map (fun s => (s.requester.amount, s.responder.amount))) := by
  have hzero := applyFees_zero (p.atomicSwaps.getD []) [] (by simp)
  refine ⟨feeStep_zero_amount, hzero.2, ?_⟩
  intro args h
  rcases initiateSwap_cases env st p with ⟨_, _, _, hc⟩ | ⟨_, _, _, _, hc⟩ |
    ⟨_, _, _, _, hc⟩ | ⟨_, _, _, _, sw, frag, log, hL, hc, hd⟩
  · rw [hc] at h; exact absurd h (by simp)
  · rw [hc] at h; exact absurd h (by simp)
  · rw [hc] at h; exact absurd h (by simp)
  · obtain ⟨_, _, hamt⟩ := swapLoop_ok env st.hederaAccountId _ _ _ sw frag log hL
    rw [hc] at h
    injection h with h
    subst h
    refine ⟨⟨?_, ?_⟩, ?_⟩
    · show (applyFees (p.serviceFee.getD ⟨0, "0.0.98"⟩).percentageCut
          (p.atomicSwaps.getD []) []).2 = (applyFees 0 (p.atomicSwaps.getD []) []).2
      rw [hcut]
    · show ∀ e ∈ (applyFees (p.serviceFee.getD ⟨0, "0.0.98"⟩).percentageCut
          (p.atomicSwaps.getD []) []).2, e.2 = 0
      rw [hcut]
      exact hzero.2
    · show sw.map (fun s => (s.requester.amount, s.responder.amount)) =
        (p.atomicSwaps.getD []).map (fun s => (s.requester.amount, s.responder.amount))
      rw [hcut] at hamt
      rw [hamt]
      exact hzero.1

/-- C6 witness: at the default (omitted) service fee the fixture transfer
amount is unchanged by the fee step and the constructed command record equals
the all-zero fee record of the reduce. -/
theorem c6_witness :
    (feeStep 0 [] tHbarW).1.amount = tHbarW.amount ∧
    swapArgsW.serviceFeesToPay = (applyFees 0 (pSwapW.atomicSwaps.getD []) []).2 :=
  ⟨(c6_zero_fee envOK stOK pSwapW rfl).1 [] tHbarW,
   ((c6_zero_fee envOK stOK pSwapW rfl).2.2 swapArgsW rfl).1.1⟩

end HederaSnap
